import Mathlib

/-!
Shallow embedding of `src/lib.rs` of the repository
`Dhghomon/edgedb_rust_client_examples`: the hand-expanded `Queryable`
implementation for `IsAStruct` (`decode` and `check_descriptor`), together
with the protocol-side data it manipulates (`Decoder` flags, the element
cursor `DecodeTupleLike`, the descriptor catalog reachable through
`DescriptorContext`, and the `DescriptorMismatch` / `DecodeError`
taxonomies).

External collaborators from the `edgedb_protocol` crate (the cursor, the
catalog, the error constructors) are modelled from the interfaces the spec
describes for them: a row buffer is a list of elements, each either absent
(`none`, the reserved sentinel length) or a payload byte string; the
catalog is a position-addressed list of descriptors.  The per-field scalar
decoders and the nested per-field descriptor checkers are external to
`lib.rs`, so both `decode` and `check_descriptor` are parameterised over
them.

Rust's panicking index expression `shape.elements[idx]` is modelled
explicitly: `CheckResult.indexOutOfBounds` records an out-of-bounds access
that the Rust code would turn into a panic rather than a structured error.
-/

set_option autoImplicit false

namespace EdgedbExamples

/-- Raw payload bytes of one wire element. -/
abbrev Bytes := List Nat

/-- One element of a tuple-like row: `none` is the reserved absent
sentinel, `some b` a length-prefixed payload. -/
abbrev Elem := Option Bytes

/-- Decode-side failures (spec section 7, structural and value errors). -/
inductive DecodeError where
  /-- The buffer does not hold the expected element count. -/
  | underflow
  /-- A cursor operation past the declared element count. -/
  | unexpectedEnd
  /-- Absent sentinel for a non-optional field. -/
  | missingRequiredField
  /-- Malformed scalar payload, carrying a description. -/
  | valueError (msg : String)
deriving DecidableEq

/-- The connection-negotiated implicit-field flags carried by
`edgedb_protocol::queryable::Decoder`. -/
structure Decoder where
  has_implicit_id : Bool
  has_implicit_tid : Bool
  has_implicit_tname : Bool
deriving DecidableEq

/-- The element cursor `DecodeTupleLike`: the elements not yet consumed. -/
structure DecodeTupleLike where
  elements : List Elem
deriving DecidableEq

/-- Embeds `DecodeTupleLike::new_object(buf, expected_count)`: opens a cursor over
the row buffer, validating that it holds exactly `expected_count`
elements. -/
def DecodeTupleLike.new_object (buf : List Elem) (expected_count : Nat) :
    Except DecodeError DecodeTupleLike :=
  if buf.length = expected_count then .ok ⟨buf⟩ else .error .underflow

/-- Embeds `DecodeTupleLike::skip_element`: discards the next element. -/
def DecodeTupleLike.skip_element : DecodeTupleLike → Except DecodeError DecodeTupleLike
  | ⟨[]⟩ => .error .unexpectedEnd
  | ⟨_ :: rest⟩ => .ok ⟨rest⟩

/-- Embeds `DecodeTupleLike::read`: yields the next element and the advanced
cursor. -/
def DecodeTupleLike.read : DecodeTupleLike → Except DecodeError (Elem × DecodeTupleLike)
  | ⟨[]⟩ => .error .unexpectedEnd
  | ⟨e :: rest⟩ => .ok (e, ⟨rest⟩)

/-- The target struct of `src/lib.rs` (`i16` modelled as `Int`). -/
structure IsAStruct where
  name : String
  number : Int
  is_cool : Bool
deriving DecidableEq

/-- The element count `decode` computes before opening the cursor
(`src/lib.rs` lines 20-23), with the three flag contributions in source
order `id`, `tid`, `tname`. -/
def IsAStruct.nfields (decoder : Decoder) : Nat :=
  3 + (if decoder.has_implicit_id then 1 else 0)
    + (if decoder.has_implicit_tid then 1 else 0)
    + (if decoder.has_implicit_tname then 1 else 0)

/-- Number of implicit elements `decode` skips, in skip order
`tid`, `tname`, `id` (`src/lib.rs` lines 25-33). -/
def Decoder.implicitCount (decoder : Decoder) : Nat :=
  (if decoder.has_implicit_tid then 1 else 0)
    + (if decoder.has_implicit_tname then 1 else 0)
    + (if decoder.has_implicit_id then 1 else 0)

/-- Embeds `<IsAStruct as Queryable>::decode` (`src/lib.rs` lines 19-42),
parameterised over the external per-field decoders
`Queryable::decode_optional` for `String`, `i16` and `bool`. -/
def IsAStruct.decode
    (decodeName : Decoder → Elem → Except DecodeError String)
    (decodeNumber : Decoder → Elem → Except DecodeError Int)
    (decodeIsCool : Decoder → Elem → Except DecodeError Bool)
    (decoder : Decoder) (buf : List Elem) : Except DecodeError IsAStruct := do
  let elements ← DecodeTupleLike.new_object buf (IsAStruct.nfields decoder)
  let elements ← if decoder.has_implicit_tid then elements.skip_element else pure elements
  let elements ← if decoder.has_implicit_tname then elements.skip_element else pure elements
  let elements ← if decoder.has_implicit_id then elements.skip_element else pure elements
  let (e, elements) ← elements.read
  let name ← decodeName decoder e
  let (e, elements) ← elements.read
  let number ← decodeNumber decoder e
  let (e, _) ← elements.read
  let is_cool ← decodeIsCool decoder e
  return { name := name, number := number, is_cool := is_cool }

/-- The three field decodes of `decode` after the implicit prefix has been
skipped, applied to the three elements they are handed, in struct order. -/
def IsAStruct.decodeFields
    (decodeName : Decoder → Elem → Except DecodeError String)
    (decodeNumber : Decoder → Elem → Except DecodeError Int)
    (decodeIsCool : Decoder → Elem → Except DecodeError Bool)
    (decoder : Decoder) (e1 e2 e3 : Elem) : Except DecodeError IsAStruct := do
  let name ← decodeName decoder e1
  let number ← decodeNumber decoder e2
  let is_cool ← decodeIsCool decoder e3
  return { name := name, number := number, is_cool := is_cool }

/-- One element of an `ObjectShape` descriptor (spec section 3). -/
structure ShapeElement where
  name : String
  type_pos : Nat
  flag_implicit : Bool
deriving DecidableEq

/-- Type descriptors, addressed by `TypePos` inside one catalog.  Only the
`ObjectShape` variant is inspected by `check_descriptor`; the others stand
for the remaining protocol descriptors. -/
inductive Descriptor where
  | ObjectShape (elements : List ShapeElement)
  | Scalar (name : String)
  | Tuple (members : List Nat)
deriving DecidableEq

/-- Holds exactly on the `ObjectShape` variant. -/
def Descriptor.isObject : Descriptor → Bool
  | .ObjectShape _ => true
  | _ => false

/-- The shape-level mismatch taxonomy of
`edgedb_protocol::queryable::DescriptorMismatch`. -/
inductive DescriptorMismatch where
  /-- A `TypePos` outside the catalog. -/
  | InvalidTypePos (pos : Nat)
  /-- The resolved descriptor has the wrong variant. -/
  | WrongType (unexpected : Descriptor) (expected : String)
  /-- A missing expected (implicit) element, carrying its description. -/
  | Expected (description : String)
  /-- A visible element whose name is not the declared field name. -/
  | WrongField (unexpected : String) (expected : String)
  /-- Leftover elements after all declared fields. -/
  | FieldNumber (unexpected : Nat) (expected : Nat)
deriving DecidableEq

/-- The catalog plus the negotiated implicit flags reachable through
`edgedb_protocol::queryable::DescriptorContext`. -/
structure DescriptorContext where
  descriptors : List Descriptor
  has_implicit_tid : Bool
  has_implicit_tname : Bool
  has_implicit_id : Bool

/-- Embeds `DescriptorContext::get`: bounds-checked catalog lookup. -/
def DescriptorContext.get (ctx : DescriptorContext) (type_pos : Nat) :
    Except DescriptorMismatch Descriptor :=
  match ctx.descriptors.get? type_pos with
  | some desc => .ok desc
  | none => .error (.InvalidTypePos type_pos)

/-- Embeds `DescriptorContext::wrong_type`. -/
def DescriptorContext.wrong_type (_ : DescriptorContext)
    (desc : Descriptor) (expected : String) : DescriptorMismatch :=
  .WrongType desc expected

/-- Embeds `DescriptorContext::expected`. -/
def DescriptorContext.expected (_ : DescriptorContext)
    (description : String) : DescriptorMismatch :=
  .Expected description

/-- Embeds `DescriptorContext::wrong_field` (expected first, as at the call sites
`ctx.wrong_field("name", &el.name)`). -/
def DescriptorContext.wrong_field (_ : DescriptorContext)
    (expected unexpected : String) : DescriptorMismatch :=
  .WrongField unexpected expected

/-- Embeds `DescriptorContext::field_number`, called as
`ctx.field_number(shape.elements.len(), idx)`. -/
def DescriptorContext.field_number (_ : DescriptorContext)
    (unexpected expected : Nat) : DescriptorMismatch :=
  .FieldNumber unexpected expected

/-- Number of implicit elements `check_descriptor` expects before the
visible fields, one per set flag. -/
def DescriptorContext.implicitCount (ctx : DescriptorContext) : Nat :=
  (if ctx.has_implicit_tid then 1 else 0)
    + (if ctx.has_implicit_tname then 1 else 0)
    + (if ctx.has_implicit_id then 1 else 0)

/-- Outcome of one run of `check_descriptor`.  `indexOutOfBounds idx`
records that the Rust code evaluated `shape.elements[idx]` with
`idx >= shape.elements.len()`, which panics instead of returning a
`DescriptorMismatch`. -/
inductive CheckResult where
  | ok
  | err (e : DescriptorMismatch)
  | indexOutOfBounds (idx : Nat)
deriving DecidableEq

/-- One conditional implicit-prefix block of `check_descriptor`
(`src/lib.rs` lines 54-71): when `flag` is set, evaluate
`shape.elements[idx]`, fail `ctx.expected description` unless it is
implicit, and advance `idx` by one; when unset, leave `idx` unchanged.
`Except.error` carries the early `return` of the Rust block. -/
def implicitStep (ctx : DescriptorContext) (flag : Bool) (description : String)
    (elements : List ShapeElement) (idx : Nat) : Except CheckResult Nat :=
  if flag then
    match elements.get? idx with
    | none => .error (.indexOutOfBounds idx)
    | some el =>
      if !el.flag_implicit then .error (.err (ctx.expected description))
      else .ok (idx + 1)
  else .ok idx

/-- The whole implicit prefix, in the fixed source order
`tid`, `tname`, `id`. -/
def implicitSteps (ctx : DescriptorContext) (elements : List ShapeElement)
    (idx : Nat) : Except CheckResult Nat := do
  let idx ← implicitStep ctx ctx.has_implicit_tid "implicit __tid__" elements idx
  let idx ← implicitStep ctx ctx.has_implicit_tname "implicit __tname__" elements idx
  implicitStep ctx ctx.has_implicit_id "implicit id" elements idx

/-- One declared-field block of `check_descriptor` (`src/lib.rs` lines
72-77 and the two analogous blocks): evaluate `shape.elements[idx]`, fail
`ctx.wrong_field fname el.name` unless the names agree, run the field's
nested checker on `el.type_pos`, and advance `idx` by one. -/
def fieldStep (checker : DescriptorContext → Nat → Except DescriptorMismatch Unit)
    (fname : String) (ctx : DescriptorContext) (elements : List ShapeElement)
    (idx : Nat) : Except CheckResult Nat :=
  match elements.get? idx with
  | none => .error (.indexOutOfBounds idx)
  | some el =>
    if el.name ≠ fname then .error (.err (ctx.wrong_field fname el.name))
    else
      match checker ctx el.type_pos with
      | .error e => .error (.err e)
      | .ok _ => .ok (idx + 1)

/-- The straight-line walk of `check_descriptor` over an `ObjectShape`:
the implicit prefix, then the three declared fields in struct order. -/
def shapeSteps
    (checkName checkNumber checkIsCool : DescriptorContext → Nat → Except DescriptorMismatch Unit)
    (ctx : DescriptorContext) (elements : List ShapeElement) :
    Except CheckResult Nat := do
  let idx ← implicitSteps ctx elements 0
  let idx ← fieldStep checkName "name" ctx elements idx
  let idx ← fieldStep checkNumber "number" ctx elements idx
  fieldStep checkIsCool "is_cool" ctx elements idx

/-- Embeds `<IsAStruct as Queryable>::check_descriptor` (`src/lib.rs` lines
44-94), parameterised over the nested checkers
`<String as Queryable>::check_descriptor`,
`<i16 as Queryable>::check_descriptor` and
`<bool as Queryable>::check_descriptor`. -/
def IsAStruct.check_descriptor
    (checkName checkNumber checkIsCool : DescriptorContext → Nat → Except DescriptorMismatch Unit)
    (ctx : DescriptorContext) (type_pos : Nat) : CheckResult :=
  match ctx.get type_pos with
  | .error e => .err e
  | .ok desc =>
    match desc with
    | .ObjectShape elements =>
      match shapeSteps checkName checkNumber checkIsCool ctx elements with
      | .error r => r
      | .ok idx =>
        if elements.length ≠ idx then .err (ctx.field_number elements.length idx)
        else .ok
    | _ => .err (ctx.wrong_type desc "str")

/-- A nested checker that accepts every position; used to instantiate the
checker parameters at concrete inputs. -/
def trivialChecker : DescriptorContext → Nat → Except DescriptorMismatch Unit :=
  fun _ _ => .ok ()

/-- A nested checker that rejects every position; used to instantiate the
checker parameters at concrete inputs. -/
def failChecker : DescriptorContext → Nat → Except DescriptorMismatch Unit :=
  fun _ _ => .error (.Expected "nested")

/-- Modelled from the spec: the declared-field walk of the generic Shape
Validator of spec section 4.3, one `fieldStep` per declared
`(name, checker)` pair in target order. -/
def fieldsSteps :
    List (String × (DescriptorContext → Nat → Except DescriptorMismatch Unit)) →
    DescriptorContext → List ShapeElement → Nat → Except CheckResult Nat
  | [], _, _, idx => .ok idx
  | (fname, checker) :: rest, ctx, elements, idx => do
    let idx ← fieldStep checker fname ctx elements idx
    fieldsSteps rest ctx elements idx

/-- Modelled from the spec: the generic Shape Validator of spec section
4.3 for an arbitrary declared field list, as generated by the `Queryable`
derive macro for the other target structs of this repository
(`QueryableAccount` and friends), whose generated code is not under
`src/`.  It runs the same implicit prefix, then one `fieldStep` per
declared `(name, checker)` pair in target order, then the same final
element-count check. -/
def check_shape
    (fields : List (String × (DescriptorContext → Nat → Except DescriptorMismatch Unit)))
    (ctx : DescriptorContext) (type_pos : Nat) : CheckResult :=
  match ctx.get type_pos with
  | .error e => .err e
  | .ok desc =>
    match desc with
    | .ObjectShape elements =>
      match (implicitSteps ctx elements 0 >>= fieldsSteps fields ctx elements) with
      | .error r => r
      | .ok idx =>
        if elements.length ≠ idx then .err (ctx.field_number elements.length idx)
        else .ok
    | _ => .err (ctx.wrong_type desc "str")

/-! ### Concrete sample inputs, used by witnesses and counterexamples -/

/-- A sample external `String` field decoder. -/
def sampleDecodeName : Decoder → Elem → Except DecodeError String := fun _ e =>
  match e with
  | some _ => .ok "sample"
  | none => .error .missingRequiredField

/-- A sample external `i16` field decoder (payload length as the value). -/
def sampleDecodeNumber : Decoder → Elem → Except DecodeError Int := fun _ e =>
  match e with
  | some b => .ok b.length
  | none => .error .missingRequiredField

/-- A sample external `bool` field decoder. -/
def sampleDecodeIsCool : Decoder → Elem → Except DecodeError Bool := fun _ e =>
  match e with
  | some _ => .ok true
  | none => .error .missingRequiredField

/-- Flags with `tid` and `id` set but `tname` unset (the example of claim
C2): field order of the structure is `id`, `tid`, `tname`. -/
def sampleDecoderTidId : Decoder := ⟨true, true, false⟩

/-- A five-element row buffer matching `nfields sampleDecoderTidId`. -/
def sampleBuf : List Elem :=
  [some [0], some [1], some [10, 20], some [30], some [40]]

/-- A catalog whose position 0 is a one-element shape with a wrong first
name: shorter than the three declared fields, yet rejected with a
structured `WrongField`, not an out-of-bounds access. -/
def shortShapeCtx : DescriptorContext :=
  ⟨[.ObjectShape [⟨"wrong", 0, false⟩]], false, false, false⟩

/-- A catalog whose position 0 is a one-element shape whose single name
matches: the walk then evaluates `shape.elements[1]` out of bounds. -/
def shortNameCtx : DescriptorContext :=
  ⟨[.ObjectShape [⟨"name", 1, false⟩], .Scalar "str"], false, false, false⟩

/-- A shape whose first visible element is `number` instead of `name`. -/
def wrongFirstCtx : DescriptorContext :=
  ⟨[.ObjectShape [⟨"number", 1, false⟩, ⟨"name", 2, false⟩, ⟨"is_cool", 3, false⟩],
    .Scalar "int16", .Scalar "str", .Scalar "bool"], false, false, false⟩

/-- The spec's P1 example catalog: shape elements delivered as
`(id, username)` for a target declaring `(username, id)`. -/
def accountShapeCtx : DescriptorContext :=
  ⟨[.ObjectShape [⟨"id", 1, false⟩, ⟨"username", 2, false⟩],
    .Scalar "uuid", .Scalar "str"], false, false, false⟩

/-- The spec's P3 example catalog: a four-element shape against the three
declared fields, with no implicit flags set. -/
def countCtx : DescriptorContext :=
  ⟨[.ObjectShape [⟨"name", 1, false⟩, ⟨"number", 1, false⟩, ⟨"is_cool", 1, false⟩,
      ⟨"extra", 1, false⟩], .Scalar "str"], false, false, false⟩

/-- Flags `tid` and `tname` set, with a shape whose second element is not
implicit: the `tname` assertion fails. -/
def tnameFailCtx : DescriptorContext :=
  ⟨[.ObjectShape [⟨"__tid__", 1, true⟩, ⟨"plain", 1, false⟩, ⟨"name", 1, false⟩,
      ⟨"number", 1, false⟩, ⟨"is_cool", 1, false⟩], .Scalar "str"], true, true, false⟩

/-- A catalog whose position 0 is a tuple descriptor, not an object
shape. -/
def tupleCtx : DescriptorContext :=
  ⟨[.Tuple [1, 1], .Scalar "str"], false, false, false⟩

/-- A catalog whose position 0 is a scalar descriptor named `uuid`. -/
def scalarCtx : DescriptorContext :=
  ⟨[.Scalar "uuid"], true, false, false⟩

/-! ### Helper lemmas -/

theorem length_eq_succ {α : Type _} {l : List α} {n : Nat} (h : l.length = n + 1) :
    ∃ a t, l = a :: t ∧ t.length = n := by
  cases l with
  | nil => simp at h
  | cons a t => exact ⟨a, t, rfl, by simpa using h⟩

theorem except_error_bind {ε α β : Type _} (e : ε) (f : α → Except ε β) :
    (Except.error e >>= f) = Except.error e := rfl

theorem except_ok_bind {ε α β : Type _} (a : α) (f : α → Except ε β) :
    (Except.ok a >>= f) = f a := rfl

theorem except_bind_eq_error {ε α β : Type _} {x : Except ε α} {f : α → Except ε β} {e : ε}
    (h : x >>= f = .error e) : x = .error e ∨ ∃ a, x = .ok a ∧ f a = .error e := by
  cases x with
  | error e0 =>
    left
    rw [except_error_bind] at h
    injection h with h
    subst h
    rfl
  | ok a =>
    right
    exact ⟨a, rfl, by rwa [except_ok_bind] at h⟩

theorem except_bind_eq_ok {ε α β : Type _} {x : Except ε α} {f : α → Except ε β} {b : β}
    (h : x >>= f = .ok b) : ∃ a, x = .ok a ∧ f a = .ok b := by
  cases x with
  | error e0 => rw [except_error_bind] at h; exact absurd h (by simp)
  | ok a => exact ⟨a, rfl, by rwa [except_ok_bind] at h⟩

theorem implicitCount_add_three (d : Decoder) :
    d.implicitCount + 3 = IsAStruct.nfields d := by
  obtain ⟨i, t, n⟩ := d
  cases i <;> cases t <;> cases n <;> decide

/-- On a buffer of the computed length, `decode` discards exactly
`implicitCount` leading elements and hands the three following elements,
in order, to the three per-field decoders. -/
theorem decode_eval
    (dName : Decoder → Elem → Except DecodeError String)
    (dNumber : Decoder → Elem → Except DecodeError Int)
    (dIsCool : Decoder → Elem → Except DecodeError Bool)
    (d : Decoder) (buf : List Elem) (h : buf.length = IsAStruct.nfields d) :
    IsAStruct.decode dName dNumber dIsCool d buf =
      IsAStruct.decodeFields dName dNumber dIsCool d
        (buf.getD d.implicitCount none)
        (buf.getD (d.implicitCount + 1) none)
        (buf.getD (d.implicitCount + 2) none) := by
  obtain ⟨i, t, n⟩ := d
  cases i <;> cases t <;> cases n <;>
  · simp only [IsAStruct.nfields, if_true, if_false] at h
    norm_num at h
    repeat (replace h := length_eq_succ h; obtain ⟨_, buf, rfl, h⟩ := h)
    rw [List.length_eq_zero] at h
    subst h
    rfl

/-- A buffer of the wrong length fails the cursor open with `underflow`. -/
theorem decode_underflow
    (dName : Decoder → Elem → Except DecodeError String)
    (dNumber : Decoder → Elem → Except DecodeError Int)
    (dIsCool : Decoder → Elem → Except DecodeError Bool)
    (d : Decoder) (buf : List Elem) (h : buf.length ≠ IsAStruct.nfields d) :
    IsAStruct.decode dName dNumber dIsCool d buf = .error .underflow := by
  simp only [IsAStruct.decode, DecodeTupleLike.new_object, if_neg h, except_error_bind]

/-- A successful `decode` run passed the cursor-open length check. -/
theorem decode_ok_length
    (dName : Decoder → Elem → Except DecodeError String)
    (dNumber : Decoder → Elem → Except DecodeError Int)
    (dIsCool : Decoder → Elem → Except DecodeError Bool)
    (d : Decoder) (buf : List Elem) (v : IsAStruct)
    (h : IsAStruct.decode dName dNumber dIsCool d buf = .ok v) :
    buf.length = IsAStruct.nfields d := by
  by_contra hne
  rw [decode_underflow dName dNumber dIsCool d buf hne] at h
  exact absurd h (by simp)

/-! ### Claim theorems about `decode` -/

/-- Claim C2: for every combination of the implicit flags, `decode` skips
exactly one leading element per set flag (in the fixed order `tid`,
`tname`, `id`) before reading the three declared fields in struct order:
on a buffer of the computed length, the field decoders receive exactly the
elements at positions `implicitCount`, `implicitCount + 1`,
`implicitCount + 2`, and `implicitCount + 3 = nfields`, so all `nfields`
elements of the cursor are consumed, no fewer and no more. -/
theorem decode_skips_implicit_then_reads_in_order
    (dName : Decoder → Elem → Except DecodeError String)
    (dNumber : Decoder → Elem → Except DecodeError Int)
    (dIsCool : Decoder → Elem → Except DecodeError Bool)
    (d : Decoder) (buf : List Elem) (h : buf.length = IsAStruct.nfields d) :
    IsAStruct.decode dName dNumber dIsCool d buf =
      IsAStruct.decodeFields dName dNumber dIsCool d
        (buf.getD d.implicitCount none)
        (buf.getD (d.implicitCount + 1) none)
        (buf.getD (d.implicitCount + 2) none)
    ∧ d.implicitCount + 3 = IsAStruct.nfields d :=
  ⟨decode_eval dName dNumber dIsCool d buf h, implicitCount_add_three d⟩

theorem decode_skips_implicit_then_reads_in_order_witness :
    (IsAStruct.decode sampleDecodeName sampleDecodeNumber sampleDecodeIsCool
        sampleDecoderTidId sampleBuf =
      IsAStruct.decodeFields sampleDecodeName sampleDecodeNumber sampleDecodeIsCool
        sampleDecoderTidId (some [10, 20]) (some [30]) (some [40]))
    ∧ sampleDecoderTidId.implicitCount + 3 = IsAStruct.nfields sampleDecoderTidId :=
  decode_skips_implicit_then_reads_in_order sampleDecodeName sampleDecodeNumber
    sampleDecodeIsCool sampleDecoderTidId sampleBuf (by decide)

/-- Claim C4: `decode` computes `nfields` as 3 plus one per set flag (in
source order `id`, `tid`, `tname`) and opens the cursor with exactly that
count: a buffer of any other length fails the open with `underflow`, and
any successful run passed the length check. -/
theorem decode_nfields_and_cursor_open
    (dName : Decoder → Elem → Except DecodeError String)
    (dNumber : Decoder → Elem → Except DecodeError Int)
    (dIsCool : Decoder → Elem → Except DecodeError Bool)
    (d : Decoder) (buf : List Elem) :
    IsAStruct.nfields d
      = 3 + (if d.has_implicit_id then 1 else 0)
          + (if d.has_implicit_tid then 1 else 0)
          + (if d.has_implicit_tname then 1 else 0)
    ∧ (buf.length ≠ IsAStruct.nfields d →
        IsAStruct.decode dName dNumber dIsCool d buf = .error .underflow)
    ∧ (∀ v, IsAStruct.decode dName dNumber dIsCool d buf = .ok v →
        buf.length = IsAStruct.nfields d) :=
  ⟨rfl, decode_underflow dName dNumber dIsCool d buf,
    fun v h => decode_ok_length dName dNumber dIsCool d buf v h⟩

theorem decode_nfields_and_cursor_open_witness :
    IsAStruct.nfields sampleDecoderTidId = 5
    ∧ IsAStruct.decode sampleDecodeName sampleDecodeNumber sampleDecodeIsCool
        sampleDecoderTidId [some [0]] = .error .underflow := by
  have h := decode_nfields_and_cursor_open sampleDecodeName sampleDecodeNumber
    sampleDecodeIsCool sampleDecoderTidId [some [0]]
  exact ⟨by decide, h.2.1 (by decide)⟩

/-- Claim C6: `decode` is all-or-nothing.  A returned value certifies that
the cursor open and all three field decodes succeeded, with the value
assembled exactly from their results; and the first failing field decode
propagates unchanged as the overall result, so no partially filled object
is ever produced. -/
theorem decode_all_or_nothing
    (dName : Decoder → Elem → Except DecodeError String)
    (dNumber : Decoder → Elem → Except DecodeError Int)
    (dIsCool : Decoder → Elem → Except DecodeError Bool)
    (d : Decoder) (buf : List Elem) :
    (∀ v, IsAStruct.decode dName dNumber dIsCool d buf = .ok v →
      buf.length = IsAStruct.nfields d
      ∧ dName d (buf.getD d.implicitCount none) = .ok v.name
      ∧ dNumber d (buf.getD (d.implicitCount + 1) none) = .ok v.number
      ∧ dIsCool d (buf.getD (d.implicitCount + 2) none) = .ok v.is_cool)
    ∧ (∀ e, buf.length = IsAStruct.nfields d →
        dName d (buf.getD d.implicitCount none) = .error e →
        IsAStruct.decode dName dNumber dIsCool d buf = .error e)
    ∧ (∀ e s, buf.length = IsAStruct.nfields d →
        dName d (buf.getD d.implicitCount none) = .ok s →
        dNumber d (buf.getD (d.implicitCount + 1) none) = .error e →
        IsAStruct.decode dName dNumber dIsCool d buf = .error e)
    ∧ (∀ e s m, buf.length = IsAStruct.nfields d →
        dName d (buf.getD d.implicitCount none) = .ok s →
        dNumber d (buf.getD (d.implicitCount + 1) none) = .ok m →
        dIsCool d (buf.getD (d.implicitCount + 2) none) = .error e →
        IsAStruct.decode dName dNumber dIsCool d buf = .error e) := by
  refine ⟨?_, ?_, ?_, ?_⟩
  · intro v hv
    have hlen := decode_ok_length dName dNumber dIsCool d buf v hv
    refine ⟨hlen, ?_⟩
    rw [decode_eval dName dNumber dIsCool d buf hlen] at hv
    unfold IsAStruct.decodeFields at hv
    cases hN : dName d (buf.getD d.implicitCount none) with
    | error e =>
      simp only [hN, except_error_bind] at hv
      exact Except.noConfusion hv
    | ok s =>
      simp only [hN, except_ok_bind] at hv
      cases hM : dNumber d (buf.getD (d.implicitCount + 1) none) with
      | error e =>
        simp only [hM, except_error_bind] at hv
        exact Except.noConfusion hv
      | ok m =>
        simp only [hM, except_ok_bind] at hv
        cases hC : dIsCool d (buf.getD (d.implicitCount + 2) none) with
        | error e =>
          simp only [hC, except_error_bind] at hv
          exact Except.noConfusion hv
        | ok c =>
          simp only [hC, except_ok_bind] at hv
          have hv2 : (Except.ok (IsAStruct.mk s m c) : Except DecodeError IsAStruct)
              = Except.ok v := hv
          injection hv2 with hv3
          subst hv3
          exact ⟨rfl, rfl, rfl⟩
  · intro e hlen hN
    rw [decode_eval dName dNumber dIsCool d buf hlen]
    unfold IsAStruct.decodeFields
    simp only [hN, except_error_bind]
  · intro e s hlen hN hM
    rw [decode_eval dName dNumber dIsCool d buf hlen]
    unfold IsAStruct.decodeFields
    simp only [hN, except_ok_bind, hM, except_error_bind]
  · intro e s m hlen hN hM hC
    rw [decode_eval dName dNumber dIsCool d buf hlen]
    unfold IsAStruct.decodeFields
    simp only [hN, except_ok_bind, hM, hC, except_error_bind]

theorem decode_all_or_nothing_witness :
    IsAStruct.decode sampleDecodeName sampleDecodeNumber sampleDecodeIsCool
      sampleDecoderTidId [some [0], some [1], none, some [30], some [40]]
      = .error .missingRequiredField := by
  have h := decode_all_or_nothing sampleDecodeName sampleDecodeNumber sampleDecodeIsCool
    sampleDecoderTidId [some [0], some [1], none, some [30], some [40]]
  exact h.2.1 .missingRequiredField (by decide) (by rfl)

/-- Claim C9: both `decode` and `check_descriptor` are pure, deterministic
functions of their inputs: two runs on the same buffer, flags, catalog and
type position are equal (the embedding carries no other state at all, just
as the Rust code mutates only call-local cursor and index variables). -/
theorem decode_and_check_descriptor_deterministic
    (dName : Decoder → Elem → Except DecodeError String)
    (dNumber : Decoder → Elem → Except DecodeError Int)
    (dIsCool : Decoder → Elem → Except DecodeError Bool)
    (d : Decoder) (buf : List Elem)
    (checkName checkNumber checkIsCool :
      DescriptorContext → Nat → Except DescriptorMismatch Unit)
    (ctx : DescriptorContext) (type_pos : Nat) :
    IsAStruct.decode dName dNumber dIsCool d buf
      = IsAStruct.decode dName dNumber dIsCool d buf
    ∧ IsAStruct.check_descriptor checkName checkNumber checkIsCool ctx type_pos
      = IsAStruct.check_descriptor checkName checkNumber checkIsCool ctx type_pos :=
  ⟨rfl, rfl⟩

/-! ### Helper lemmas about the descriptor walk -/

theorem get?_some_lt {α : Type _} {l : List α} {i : Nat} {a : α} (h : l.get? i = some a) :
    i < l.length := by
  by_contra hge
  rw [List.get?_eq_none.mpr (by omega)] at h
  exact Option.noConfusion h

/-- Unfolding `check_descriptor` once the catalog yields an object
shape. -/
theorem check_descriptor_object
    (checkName checkNumber checkIsCool :
      DescriptorContext → Nat → Except DescriptorMismatch Unit)
    (ctx : DescriptorContext) (type_pos : Nat) (elements : List ShapeElement)
    (hget : ctx.get type_pos = .ok (.ObjectShape elements)) :
    IsAStruct.check_descriptor checkName checkNumber checkIsCool ctx type_pos =
      (match shapeSteps checkName checkNumber checkIsCool ctx elements with
       | .error r => r
       | .ok idx =>
         if elements.length ≠ idx then .err (ctx.field_number elements.length idx)
         else .ok) := by
  unfold IsAStruct.check_descriptor
  rw [hget]

/-- A `fieldStep` whose element exists but carries the wrong name fails
with `WrongField`. -/
theorem fieldStep_wrong_name
    (c : DescriptorContext → Nat → Except DescriptorMismatch Unit)
    (fname : String) (ctx : DescriptorContext) (elements : List ShapeElement)
    (idx : Nat) (el : ShapeElement)
    (hel : elements.get? idx = some el) (hname : el.name ≠ fname) :
    fieldStep c fname ctx elements idx = .error (.err (.WrongField el.name fname)) := by
  unfold fieldStep
  simp only [hel, hname, DescriptorContext.wrong_field, ne_eq, not_false_eq_true, if_true,
    ite_true]

/-- A successful `implicitStep` leaves the index unchanged when the flag
is unset, and advances it past an existing element when set. -/
theorem implicitStep_ok_inv {ctx : DescriptorContext} {flag : Bool} {d : String}
    {elements : List ShapeElement} {idx j : Nat}
    (h : implicitStep ctx flag d elements idx = .ok j) :
    (flag = false → j = idx) ∧ (flag = true → j = idx + 1 ∧ idx < elements.length) := by
  unfold implicitStep at h
  cases flag with
  | false =>
    simp only [Bool.false_eq_true, if_false] at h
    injection h with h
    exact ⟨fun _ => h.symm, by simp⟩
  | true =>
    simp only [if_true] at h
    refine ⟨by simp, fun _ => ?_⟩
    cases hel : elements.get? idx with
    | none => simp only [hel] at h; exact Except.noConfusion h
    | some el =>
      simp only [hel] at h
      by_cases hf : el.flag_implicit
      · rw [if_neg (by simp [hf])] at h
        injection h with h
        exact ⟨h.symm, get?_some_lt hel⟩
      · rw [if_pos (by simp [hf])] at h
        exact Except.noConfusion h

/-- A failing `implicitStep` fails with an out-of-bounds access or an
`Expected` mismatch, never with success or any other mismatch. -/
theorem implicitStep_error_inv {ctx : DescriptorContext} {flag : Bool} {d : String}
    {elements : List ShapeElement} {idx : Nat} {r : CheckResult}
    (h : implicitStep ctx flag d elements idx = .error r) :
    r = .indexOutOfBounds idx ∨ r = .err (.Expected d) := by
  unfold implicitStep at h
  cases flag with
  | false =>
    simp only [Bool.false_eq_true, if_false] at h
    exact Except.noConfusion h
  | true =>
    simp only [if_true] at h
    cases hel : elements.get? idx with
    | none =>
      simp only [hel] at h
      injection h with h
      exact Or.inl h.symm
    | some el =>
      simp only [hel] at h
      by_cases hf : el.flag_implicit
      · rw [if_neg (by simp [hf])] at h
        exact Except.noConfusion h
      · rw [if_pos (by simp [hf])] at h
        injection h with h
        exact Or.inr (h.symm.trans (by rfl))

/-- A successful `fieldStep` advances the index past an existing element
whose name matched and whose nested check succeeded. -/
theorem fieldStep_ok_inv
    {c : DescriptorContext → Nat → Except DescriptorMismatch Unit}
    {fname : String} {ctx : DescriptorContext} {elements : List ShapeElement}
    {idx j : Nat}
    (h : fieldStep c fname ctx elements idx = .ok j) :
    j = idx + 1 ∧ idx < elements.length
    ∧ ∃ el, elements.get? idx = some el ∧ el.name = fname
        ∧ c ctx el.type_pos = .ok () := by
  unfold fieldStep at h
  cases hel : elements.get? idx with
  | none => simp only [hel] at h; exact Except.noConfusion h
  | some el =>
    simp only [hel] at h
    by_cases hn : el.name ≠ fname
    · rw [if_pos hn] at h
      exact Except.noConfusion h
    · rw [if_neg hn] at h
      push_neg at hn
      cases hc : c ctx el.type_pos with
      | error e => simp only [hc] at h; exact Except.noConfusion h
      | ok u =>
        simp only [hc] at h
        injection h with h
        exact ⟨h.symm, get?_some_lt hel, el, rfl, hn, by rw [hc]⟩

/-- A failing `fieldStep` fails with an out-of-bounds access, a
`WrongField` mismatch, or the propagated error of its nested checker —
never with success. -/
theorem fieldStep_error_inv
    {c : DescriptorContext → Nat → Except DescriptorMismatch Unit}
    {fname : String} {ctx : DescriptorContext} {elements : List ShapeElement}
    {idx : Nat} {r : CheckResult}
    (h : fieldStep c fname ctx elements idx = .error r) :
    r = .indexOutOfBounds idx
    ∨ (∃ el, elements.get? idx = some el ∧ r = .err (.WrongField el.name fname))
    ∨ ∃ e el, elements.get? idx = some el ∧ c ctx el.type_pos = .error e
        ∧ r = .err e := by
  unfold fieldStep at h
  cases hel : elements.get? idx with
  | none =>
    simp only [hel] at h
    injection h with h
    exact Or.inl h.symm
  | some el =>
    simp only [hel] at h
    by_cases hn : el.name ≠ fname
    · rw [if_pos hn] at h
      injection h with h
      exact Or.inr (Or.inl ⟨el, rfl, h.symm⟩)
    · rw [if_neg hn] at h
      cases hc : c ctx el.type_pos with
      | error e =>
        simp only [hc] at h
        injection h with h
        exact Or.inr (Or.inr ⟨e, el, rfl, hc, h.symm⟩)
      | ok u =>
        simp only [hc] at h
        exact Except.noConfusion h

/-- A successful implicit prefix ends exactly at `implicitCount` positions
past its start. -/
theorem implicitSteps_ok_inv {ctx : DescriptorContext} {elements : List ShapeElement}
    {idx0 k : Nat} (h : implicitSteps ctx elements idx0 = .ok k) :
    k = idx0 + ctx.implicitCount := by
  unfold implicitSteps at h
  obtain ⟨j1, h1, h⟩ := except_bind_eq_ok h
  obtain ⟨j2, h2, h3⟩ := except_bind_eq_ok h
  have a1 := implicitStep_ok_inv h1
  have a2 := implicitStep_ok_inv h2
  have a3 := implicitStep_ok_inv h3
  unfold DescriptorContext.implicitCount
  cases htid : ctx.has_implicit_tid <;> cases htname : ctx.has_implicit_tname <;>
    cases hid : ctx.has_implicit_id <;>
      simp only [htid, htname, hid, Bool.false_eq_true, false_implies, true_implies,
        forall_const, if_true, if_false, ite_true, ite_false] at a1 a2 a3 ⊢ <;>
      omega

/-- A failing implicit prefix fails with an out-of-bounds access or an
`Expected` mismatch. -/
theorem implicitSteps_error_inv {ctx : DescriptorContext} {elements : List ShapeElement}
    {idx0 : Nat} {r : CheckResult} (h : implicitSteps ctx elements idx0 = .error r) :
    (∃ i, r = .indexOutOfBounds i) ∨ ∃ s, r = .err (.Expected s) := by
  unfold implicitSteps at h
  rcases except_bind_eq_error h with h1 | ⟨j1, h1, h⟩
  · rcases implicitStep_error_inv h1 with h2 | h2
    · exact Or.inl ⟨idx0, h2⟩
    · exact Or.inr ⟨_, h2⟩
  rcases except_bind_eq_error h with h2 | ⟨j2, h2, h3⟩
  · rcases implicitStep_error_inv h2 with h4 | h4
    · exact Or.inl ⟨j1, h4⟩
    · exact Or.inr ⟨_, h4⟩
  · rcases implicitStep_error_inv h3 with h4 | h4
    · exact Or.inl ⟨j2, h4⟩
    · exact Or.inr ⟨_, h4⟩

/-- A successful shape walk ends exactly at `implicitCount + 3` and
certifies that the shape holds at least that many elements. -/
theorem shapeSteps_ok_inv
    {checkName checkNumber checkIsCool :
      DescriptorContext → Nat → Except DescriptorMismatch Unit}
    {ctx : DescriptorContext} {elements : List ShapeElement} {j : Nat}
    (h : shapeSteps checkName checkNumber checkIsCool ctx elements = .ok j) :
    j = ctx.implicitCount + 3 ∧ ctx.implicitCount + 2 < elements.length := by
  unfold shapeSteps at h
  obtain ⟨k, hk, h⟩ := except_bind_eq_ok h
  obtain ⟨j1, h1, h⟩ := except_bind_eq_ok h
  obtain ⟨j2, h2, h3⟩ := except_bind_eq_ok h
  have hkc := implicitSteps_ok_inv hk
  obtain ⟨e1, l1, -⟩ := fieldStep_ok_inv h1
  obtain ⟨e2, l2, -⟩ := fieldStep_ok_inv h2
  obtain ⟨e3, l3, -⟩ := fieldStep_ok_inv h3
  omega

/-- Any failure of the shape walk is an out-of-bounds access, an
`Expected` mismatch, a `WrongField` mismatch, or an error propagated from
a nested checker — never a success and never a count mismatch of its
own. -/
theorem shapeSteps_error_inv
    {checkName checkNumber checkIsCool :
      DescriptorContext → Nat → Except DescriptorMismatch Unit}
    {ctx : DescriptorContext} {elements : List ShapeElement} {r : CheckResult}
    (h : shapeSteps checkName checkNumber checkIsCool ctx elements = .error r) :
    (∃ i, r = .indexOutOfBounds i) ∨ (∃ s, r = .err (.Expected s))
    ∨ (∃ a b, r = .err (.WrongField a b))
    ∨ ∃ e, r = .err e
        ∧ ((∃ p, checkName ctx p = .error e) ∨ (∃ p, checkNumber ctx p = .error e)
            ∨ ∃ p, checkIsCool ctx p = .error e) := by
  unfold shapeSteps at h
  rcases except_bind_eq_error h with hk | ⟨k, hk, h⟩
  · rcases implicitSteps_error_inv hk with h2 | h2
    · exact Or.inl h2
    · exact Or.inr (Or.inl h2)
  rcases except_bind_eq_error h with h1 | ⟨j1, h1, h⟩
  · rcases fieldStep_error_inv h1 with h2 | ⟨el, -, h2⟩ | ⟨e, el, -, hc, h2⟩
    · exact Or.inl ⟨k, h2⟩
    · exact Or.inr (Or.inr (Or.inl ⟨el.name, "name", h2⟩))
    · exact Or.inr (Or.inr (Or.inr ⟨e, h2, Or.inl ⟨el.type_pos, hc⟩⟩))
  rcases except_bind_eq_error h with h2 | ⟨j2, h2, h3⟩
  · rcases fieldStep_error_inv h2 with h4 | ⟨el, -, h4⟩ | ⟨e, el, -, hc, h4⟩
    · exact Or.inl ⟨j1, h4⟩
    · exact Or.inr (Or.inr (Or.inl ⟨el.name, "number", h4⟩))
    · exact Or.inr (Or.inr (Or.inr ⟨e, h4, Or.inr (Or.inl ⟨el.type_pos, hc⟩)⟩))
  · rcases fieldStep_error_inv h3 with h4 | ⟨el, -, h4⟩ | ⟨e, el, -, hc, h4⟩
    · exact Or.inl ⟨j2, h4⟩
    · exact Or.inr (Or.inr (Or.inl ⟨el.name, "is_cool", h4⟩))
    · exact Or.inr (Or.inr (Or.inr ⟨e, h4, Or.inr (Or.inr ⟨el.type_pos, hc⟩)⟩))

/-! ### Claim theorems about `check_descriptor` -/

/-- Claim C1: whenever the implicit prefix succeeds and the element at the
first visible position `k` exists with a name other than the first
declared field `name`, `check_descriptor` fails
`WrongField(unexpected = that name, expected = name)` at that position —
field order, not set membership, decides; and on the spec's P1 example,
target fields `(username, id)` against shape elements `(id, username)`
fail `WrongField(unexpected = id, expected = username)` at position 0. -/
theorem check_descriptor_wrong_field_first_visible
    (checkName checkNumber checkIsCool :
      DescriptorContext → Nat → Except DescriptorMismatch Unit)
    (ctx : DescriptorContext) (tp : Nat) (elements : List ShapeElement)
    (k : Nat) (el : ShapeElement)
    (hget : ctx.get tp = .ok (.ObjectShape elements))
    (himp : implicitSteps ctx elements 0 = .ok k)
    (hel : elements.get? k = some el)
    (hname : el.name ≠ "name") :
    IsAStruct.check_descriptor checkName checkNumber checkIsCool ctx tp
      = .err (.WrongField el.name "name")
    ∧ check_shape [("username", trivialChecker), ("id", trivialChecker)] accountShapeCtx 0
      = .err (.WrongField "id" "username") := by
  constructor
  · rw [check_descriptor_object checkName checkNumber checkIsCool ctx tp elements hget]
    have hss : shapeSteps checkName checkNumber checkIsCool ctx elements
        = .error (.err (.WrongField el.name "name")) := by
      unfold shapeSteps
      simp only [himp, except_ok_bind,
        fieldStep_wrong_name checkName "name" ctx elements k el hel hname,
        except_error_bind]
    rw [hss]
  · decide

theorem check_descriptor_wrong_field_first_visible_witness :
    IsAStruct.check_descriptor trivialChecker trivialChecker trivialChecker wrongFirstCtx 0
      = .err (.WrongField "number" "name")
    ∧ check_shape [("username", trivialChecker), ("id", trivialChecker)] accountShapeCtx 0
      = .err (.WrongField "id" "username") :=
  check_descriptor_wrong_field_first_visible trivialChecker trivialChecker trivialChecker
    wrongFirstCtx 0 [⟨"number", 1, false⟩, ⟨"name", 2, false⟩, ⟨"is_cool", 3, false⟩] 0
    ⟨"number", 1, false⟩ (by rfl) (by rfl) (by rfl) (by decide)

/-- Claim C5: when the whole shape walk (implicit prefix, all three name
checks, all nested checks) succeeds at final index `idx` but the shape
holds a different number of elements, `check_descriptor` fails
`FieldNumber(unexpected = elements.length, expected = idx)`. -/
theorem check_descriptor_field_count_mismatch
    (checkName checkNumber checkIsCool :
      DescriptorContext → Nat → Except DescriptorMismatch Unit)
    (ctx : DescriptorContext) (tp : Nat) (elements : List ShapeElement) (idx : Nat)
    (hget : ctx.get tp = .ok (.ObjectShape elements))
    (hsteps : shapeSteps checkName checkNumber checkIsCool ctx elements = .ok idx)
    (hlen : elements.length ≠ idx) :
    IsAStruct.check_descriptor checkName checkNumber checkIsCool ctx tp
      = .err (.FieldNumber elements.length idx) := by
  rw [check_descriptor_object checkName checkNumber checkIsCool ctx tp elements hget]
  simp only [hsteps, hlen, DescriptorContext.field_number, ne_eq, not_false_eq_true,
    ite_true, if_true]

theorem check_descriptor_field_count_mismatch_witness :
    IsAStruct.check_descriptor trivialChecker trivialChecker trivialChecker countCtx 0
      = .err (.FieldNumber 4 3) :=
  check_descriptor_field_count_mismatch trivialChecker trivialChecker trivialChecker
    countCtx 0
    [⟨"name", 1, false⟩, ⟨"number", 1, false⟩, ⟨"is_cool", 1, false⟩, ⟨"extra", 1, false⟩]
    3 (by rfl) (by rfl) (by decide)

/-- Claim C7: for each implicit kind in the fixed order `tid`, `tname`,
`id` whose flag is set, `check_descriptor` asserts `flag_implicit` on the
element at the current index, fails `Expected` with the kind's description
(`implicit __tid__`, `implicit __tname__`, `implicit id`) when the flag is
false, and otherwise advances the index by exactly one; an unset flag
leaves the index unchanged. -/
theorem check_descriptor_implicit_prefix_checks
    (checkName checkNumber checkIsCool :
      DescriptorContext → Nat → Except DescriptorMismatch Unit)
    (ctx : DescriptorContext) (tp : Nat) (elements : List ShapeElement)
    (hget : ctx.get tp = .ok (.ObjectShape elements)) :
    (∀ el, ctx.has_implicit_tid = true → elements.get? 0 = some el →
      el.flag_implicit = false →
      IsAStruct.check_descriptor checkName checkNumber checkIsCool ctx tp
        = .err (.Expected "implicit __tid__"))
    ∧ (∀ i1 el,
        implicitStep ctx ctx.has_implicit_tid "implicit __tid__" elements 0 = .ok i1 →
        ctx.has_implicit_tname = true → elements.get? i1 = some el →
        el.flag_implicit = false →
        IsAStruct.check_descriptor checkName checkNumber checkIsCool ctx tp
          = .err (.Expected "implicit __tname__"))
    ∧ (∀ i1 i2 el,
        implicitStep ctx ctx.has_implicit_tid "implicit __tid__" elements 0 = .ok i1 →
        implicitStep ctx ctx.has_implicit_tname "implicit __tname__" elements i1 = .ok i2 →
        ctx.has_implicit_id = true → elements.get? i2 = some el →
        el.flag_implicit = false →
        IsAStruct.check_descriptor checkName checkNumber checkIsCool ctx tp
          = .err (.Expected "implicit id"))
    ∧ (∀ (flag : Bool) (d : String) (idx : Nat) el, flag = true →
        elements.get? idx = some el → el.flag_implicit = true →
        implicitStep ctx flag d elements idx = .ok (idx + 1))
    ∧ (∀ (flag : Bool) (d : String) (idx : Nat), flag = false →
        implicitStep ctx flag d elements idx = .ok idx) := by
  refine ⟨?_, ?_, ?_, ?_, ?_⟩
  · intro el htid hel hflag
    rw [check_descriptor_object checkName checkNumber checkIsCool ctx tp elements hget]
    have h1 : implicitStep ctx ctx.has_implicit_tid "implicit __tid__" elements 0
        = .error (.err (.Expected "implicit __tid__")) := by
      unfold implicitStep
      simp only [htid, if_true, ite_true, hel, hflag, Bool.not_false,
        DescriptorContext.expected]
    have hss : shapeSteps checkName checkNumber checkIsCool ctx elements
        = .error (.err (.Expected "implicit __tid__")) := by
      unfold shapeSteps implicitSteps
      simp only [h1, except_error_bind]
    rw [hss]
  · intro i1 el h1 htname hel hflag
    rw [check_descriptor_object checkName checkNumber checkIsCool ctx tp elements hget]
    have h2 : implicitStep ctx ctx.has_implicit_tname "implicit __tname__" elements i1
        = .error (.err (.Expected "implicit __tname__")) := by
      unfold implicitStep
      simp only [htname, if_true, ite_true, hel, hflag, Bool.not_false,
        DescriptorContext.expected]
    have hss : shapeSteps checkName checkNumber checkIsCool ctx elements
        = .error (.err (.Expected "implicit __tname__")) := by
      unfold shapeSteps implicitSteps
      simp only [h1, except_ok_bind, h2, except_error_bind]
    rw [hss]
  · intro i1 i2 el h1 h2 hid hel hflag
    rw [check_descriptor_object checkName checkNumber checkIsCool ctx tp elements hget]
    have h3 : implicitStep ctx ctx.has_implicit_id "implicit id" elements i2
        = .error (.err (.Expected "implicit id")) := by
      unfold implicitStep
      simp only [hid, if_true, ite_true, hel, hflag, Bool.not_false,
        DescriptorContext.expected]
    have hss : shapeSteps checkName checkNumber checkIsCool ctx elements
        = .error (.err (.Expected "implicit id")) := by
      unfold shapeSteps implicitSteps
      simp only [h1, except_ok_bind, h2, h3, except_error_bind]
    rw [hss]
  · intro flag d idx el hflag hel himpl
    subst hflag
    unfold implicitStep
    simp only [if_true, ite_true, hel, himpl, Bool.not_true]
    rfl
  · intro flag d idx hflag
    subst hflag
    rfl

theorem check_descriptor_implicit_prefix_checks_witness :
    IsAStruct.check_descriptor trivialChecker trivialChecker trivialChecker tnameFailCtx 0
      = .err (.Expected "implicit __tname__") := by
  have h := check_descriptor_implicit_prefix_checks trivialChecker trivialChecker
    trivialChecker tnameFailCtx 0
    [⟨"__tid__", 1, true⟩, ⟨"plain", 1, false⟩, ⟨"name", 1, false⟩,
      ⟨"number", 1, false⟩, ⟨"is_cool", 1, false⟩] (by rfl)
  exact h.2.1 1 ⟨"plain", 1, false⟩ (by rfl) (by rfl) (by rfl) (by rfl)

/-- Claim C8: a type position whose resolved descriptor is not an
`ObjectShape` makes `check_descriptor` fail `WrongType` immediately,
before inspecting any shape element or field name — the result does not
even depend on the nested checkers. -/
theorem check_descriptor_wrong_type_early
    (checkName checkNumber checkIsCool checkName2 checkNumber2 checkIsCool2 :
      DescriptorContext → Nat → Except DescriptorMismatch Unit)
    (ctx : DescriptorContext) (tp : Nat) (desc : Descriptor)
    (hget : ctx.get tp = .ok desc) (hno : desc.isObject = false) :
    IsAStruct.check_descriptor checkName checkNumber checkIsCool ctx tp
      = .err (.WrongType desc "str")
    ∧ IsAStruct.check_descriptor checkName checkNumber checkIsCool ctx tp
      = IsAStruct.check_descriptor checkName2 checkNumber2 checkIsCool2 ctx tp := by
  cases desc with
  | ObjectShape elements => simp [Descriptor.isObject] at hno
  | Scalar s =>
    constructor
    · unfold IsAStruct.check_descriptor
      rw [hget]
      rfl
    · unfold IsAStruct.check_descriptor
      rw [hget]
  | Tuple ms =>
    constructor
    · unfold IsAStruct.check_descriptor
      rw [hget]
      rfl
    · unfold IsAStruct.check_descriptor
      rw [hget]

theorem check_descriptor_wrong_type_early_witness :
    IsAStruct.check_descriptor trivialChecker trivialChecker trivialChecker tupleCtx 0
      = .err (.WrongType (.Tuple [1, 1]) "str")
    ∧ IsAStruct.check_descriptor trivialChecker trivialChecker trivialChecker tupleCtx 0
      = IsAStruct.check_descriptor failChecker failChecker failChecker tupleCtx 0 :=
  check_descriptor_wrong_type_early trivialChecker trivialChecker trivialChecker
    failChecker failChecker failChecker tupleCtx 0 (.Tuple [1, 1]) (by rfl) (by rfl)

/-- Claim C10: on the non-`ObjectShape` branch, the `WrongType` mismatch
`check_descriptor` constructs always names `str` as the expected type,
whatever the descriptor is and although the target is the object type
`IsAStruct`. -/
theorem check_descriptor_wrong_type_expected_str
    (checkName checkNumber checkIsCool :
      DescriptorContext → Nat → Except DescriptorMismatch Unit)
    (ctx : DescriptorContext) (tp : Nat) (desc : Descriptor)
    (hget : ctx.get tp = .ok desc) (hno : desc.isObject = false) :
    ∃ u, IsAStruct.check_descriptor checkName checkNumber checkIsCool ctx tp
      = .err (.WrongType u "str") ∧ u = desc := by
  refine ⟨desc, ?_, rfl⟩
  cases desc with
  | ObjectShape elements => simp [Descriptor.isObject] at hno
  | Scalar s =>
    unfold IsAStruct.check_descriptor
    rw [hget]
    rfl
  | Tuple ms =>
    unfold IsAStruct.check_descriptor
    rw [hget]
    rfl

theorem check_descriptor_wrong_type_expected_str_witness :
    IsAStruct.check_descriptor trivialChecker trivialChecker trivialChecker scalarCtx 0
      = .err (.WrongType (.Scalar "uuid") "str") := by
  obtain ⟨u, hu, hud⟩ := check_descriptor_wrong_type_expected_str trivialChecker
    trivialChecker trivialChecker scalarCtx 0 (.Scalar "uuid") (by rfl) (by rfl)
  rw [hud] at hu
  exact hu

/-- Claim C3 is refuted as stated: this one-element shape (fewer elements
than the zero set implicit flags plus the three declared fields) does not
reach any out-of-bounds access — `check_descriptor` reports the structured
mismatch `WrongField(unexpected = wrong, expected = name)` at position 0
instead of panicking. -/
theorem check_descriptor_short_shape_counterexample :
    shortShapeCtx.get 0 = .ok (.ObjectShape [⟨"wrong", 0, false⟩])
    ∧ List.length [(⟨"wrong", 0, false⟩ : ShapeElement)] < shortShapeCtx.implicitCount + 3
    ∧ IsAStruct.check_descriptor trivialChecker trivialChecker trivialChecker shortShapeCtx 0
      = .err (.WrongField "wrong" "name") :=
  ⟨rfl, by decide, by decide⟩

/-- Claim C3 (amended): `check_descriptor` indexes `shape.elements[idx]`
with no bounds check, and on a shape with fewer elements than the set
implicit flags plus the three declared fields it can never reach the final
count check: it either hits an out-of-bounds access (a panic in Rust) or
fails earlier with a structured mismatch, so — provided the nested
checkers do not themselves produce a `FieldNumber` error — such a shape is
never reported as `FieldNumber` and never accepted. -/
theorem check_descriptor_short_shape_no_field_count
    (checkName checkNumber checkIsCool :
      DescriptorContext → Nat → Except DescriptorMismatch Unit)
    (ctx : DescriptorContext) (tp : Nat) (elements : List ShapeElement)
    (hget : ctx.get tp = .ok (.ObjectShape elements))
    (hshort : elements.length < ctx.implicitCount + 3)
    (hcs : ∀ p a b, checkName ctx p ≠ .error (.FieldNumber a b))
    (hci : ∀ p a b, checkNumber ctx p ≠ .error (.FieldNumber a b))
    (hcb : ∀ p a b, checkIsCool ctx p ≠ .error (.FieldNumber a b)) :
    IsAStruct.check_descriptor checkName checkNumber checkIsCool ctx tp ≠ .ok
    ∧ ∀ a b, IsAStruct.check_descriptor checkName checkNumber checkIsCool ctx tp
        ≠ .err (.FieldNumber a b) := by
  rw [check_descriptor_object checkName checkNumber checkIsCool ctx tp elements hget]
  cases hss : shapeSteps checkName checkNumber checkIsCool ctx elements with
  | error r =>
    rcases shapeSteps_error_inv hss with ⟨i, rfl⟩ | ⟨s, rfl⟩ | ⟨a0, b0, rfl⟩ | ⟨e, rfl, he⟩
    · exact ⟨fun hcon => CheckResult.noConfusion hcon,
        fun a b hcon => CheckResult.noConfusion hcon⟩
    · refine ⟨fun hcon => CheckResult.noConfusion hcon, fun a b hcon => ?_⟩
      injection hcon with hcon
      exact DescriptorMismatch.noConfusion hcon
    · refine ⟨fun hcon => CheckResult.noConfusion hcon, fun a b hcon => ?_⟩
      injection hcon with hcon
      exact DescriptorMismatch.noConfusion hcon
    · refine ⟨fun hcon => CheckResult.noConfusion hcon, fun a b hcon => ?_⟩
      injection hcon with hcon
      rcases he with ⟨p, hp⟩ | ⟨p, hp⟩ | ⟨p, hp⟩
      · exact hcs p a b (hcon ▸ hp)
      · exact hci p a b (hcon ▸ hp)
      · exact hcb p a b (hcon ▸ hp)
  | ok j =>
    exact absurd (shapeSteps_ok_inv hss).2 (by omega)

theorem check_descriptor_short_shape_no_field_count_witness :
    IsAStruct.check_descriptor trivialChecker trivialChecker trivialChecker shortNameCtx 0
      ≠ .ok
    ∧ IsAStruct.check_descriptor trivialChecker trivialChecker trivialChecker shortNameCtx 0
      ≠ .err (.FieldNumber 1 3) := by
  have h := check_descriptor_short_shape_no_field_count trivialChecker trivialChecker
    trivialChecker shortNameCtx 0 [⟨"name", 1, false⟩] (by rfl) (by decide)
    (fun p a b => by simp [trivialChecker])
    (fun p a b => by simp [trivialChecker])
    (fun p a b => by simp [trivialChecker])
  exact ⟨h.1, h.2 1 3⟩

end EdgedbExamples
